import Mathlib

set_option maxRecDepth 16384

/-
Verification development for the Personal Mock Test Generator backend
(src/main.py). The backend persists test records in a JSON file and
forwards prompts to a generative AI provider, validating the returned
JSON. The Python code is shallowly embedded: JSON values (the results of
json.loads and request bodies) are modelled by the inductive type PyVal,
Python dictionaries by association lists with string keys, and Python
runtime exceptions (AttributeError, TypeError, KeyError, IndexError) by
Option or by explicit outcome constructors. All definitions are
computable and translated from src/main.py.
-/

/-- A Python value as produced by json.loads or received in a request
body: None, bool, int, float, str, list, dict. Dicts are association
lists in insertion order with string keys (JSON object keys are strings);
keys are assumed unique, as in a Python dict. The float payload is a
rational standing for the numeric value; its exact decimal rendering is
abstracted. -/
inductive PyVal where
  | null
  | bool (b : Bool)
  | int (i : Int)
  | float (q : Rat)
  | str (s : String)
  | arr (xs : List PyVal)
  | obj (kvs : List (String × PyVal))

mutual

/-- Decidable structural equality for PyVal (Python == on JSON-shaped
values of equal type). -/
def PyVal.decEq : (a b : PyVal) → Decidable (a = b)
  | .null, .null => isTrue rfl
  | .bool a, .bool b =>
    if h : a = b then isTrue (by rw [h]) else isFalse (fun hh => by cases hh; exact h rfl)
  | .int a, .int b =>
    if h : a = b then isTrue (by rw [h]) else isFalse (fun hh => by cases hh; exact h rfl)
  | .float a, .float b =>
    if h : a = b then isTrue (by rw [h]) else isFalse (fun hh => by cases hh; exact h rfl)
  | .str a, .str b =>
    if h : a = b then isTrue (by rw [h]) else isFalse (fun hh => by cases hh; exact h rfl)
  | .arr a, .arr b =>
    match PyVal.decEqList a b with
    | isTrue h => isTrue (by rw [h])
    | isFalse h => isFalse (fun hh => by cases hh; exact h rfl)
  | .obj a, .obj b =>
    match PyVal.decEqKV a b with
    | isTrue h => isTrue (by rw [h])
    | isFalse h => isFalse (fun hh => by cases hh; exact h rfl)
  | .null, .bool _ => isFalse nofun
  | .null, .int _ => isFalse nofun
  | .null, .float _ => isFalse nofun
  | .null, .str _ => isFalse nofun
  | .null, .arr _ => isFalse nofun
  | .null, .obj _ => isFalse nofun
  | .bool _, .null => isFalse nofun
  | .bool _, .int _ => isFalse nofun
  | .bool _, .float _ => isFalse nofun
  | .bool _, .str _ => isFalse nofun
  | .bool _, .arr _ => isFalse nofun
  | .bool _, .obj _ => isFalse nofun
  | .int _, .null => isFalse nofun
  | .int _, .bool _ => isFalse nofun
  | .int _, .float _ => isFalse nofun
  | .int _, .str _ => isFalse nofun
  | .int _, .arr _ => isFalse nofun
  | .int _, .obj _ => isFalse nofun
  | .float _, .null => isFalse nofun
  | .float _, .bool _ => isFalse nofun
  | .float _, .int _ => isFalse nofun
  | .float _, .str _ => isFalse nofun
  | .float _, .arr _ => isFalse nofun
  | .float _, .obj _ => isFalse nofun
  | .str _, .null => isFalse nofun
  | .str _, .bool _ => isFalse nofun
  | .str _, .int _ => isFalse nofun
  | .str _, .float _ => isFalse nofun
  | .str _, .arr _ => isFalse nofun
  | .str _, .obj _ => isFalse nofun
  | .arr _, .null => isFalse nofun
  | .arr _, .bool _ => isFalse nofun
  | .arr _, .int _ => isFalse nofun
  | .arr _, .float _ => isFalse nofun
  | .arr _, .str _ => isFalse nofun
  | .arr _, .obj _ => isFalse nofun
  | .obj _, .null => isFalse nofun
  | .obj _, .bool _ => isFalse nofun
  | .obj _, .int _ => isFalse nofun
  | .obj _, .float _ => isFalse nofun
  | .obj _, .str _ => isFalse nofun
  | .obj _, .arr _ => isFalse nofun

/-- Decidable equality on lists of PyVal. -/
def PyVal.decEqList : (a b : List PyVal) → Decidable (a = b)
  | [], [] => isTrue rfl
  | [], _ :: _ => isFalse nofun
  | _ :: _, [] => isFalse nofun
  | x :: xs, y :: ys =>
    match PyVal.decEq x y with
    | isTrue h1 =>
      match PyVal.decEqList xs ys with
      | isTrue h2 => isTrue (by rw [h1, h2])
      | isFalse h2 => isFalse (fun hh => by cases hh; exact h2 rfl)
    | isFalse h1 => isFalse (fun hh => by cases hh; exact h1 rfl)

/-- Decidable equality on association lists. -/
def PyVal.decEqKV : (a b : List (String × PyVal)) → Decidable (a = b)
  | [], [] => isTrue rfl
  | [], _ :: _ => isFalse nofun
  | _ :: _, [] => isFalse nofun
  | (k, x) :: xs, (l, y) :: ys =>
    if hk : k = l then
      match PyVal.decEq x y with
      | isTrue h1 =>
        match PyVal.decEqKV xs ys with
        | isTrue h2 => isTrue (by rw [hk, h1, h2])
        | isFalse h2 => isFalse (fun hh => by cases hh; exact h2 rfl)
      | isFalse h1 => isFalse (fun hh => by cases hh; exact h1 rfl)
    else isFalse (fun hh => by cases hh; exact hk rfl)

end

instance : DecidableEq PyVal := PyVal.decEq

/-- A Python dict value, as stored in the tests.json array: an association
list in insertion order. -/
abbrev Rec := List (String × PyVal)

/-- Python d.get(k): the value at the first matching key, or none when the
key is absent. -/
def dictGet (kvs : Rec) (k : String) : Option PyVal :=
  match kvs with
  | [] => none
  | (k2, v) :: rest => if k2 = k then some v else dictGet rest k

/-- Python d[k] = v on a dict: replaces the value at an existing key in
place, or appends the new key at the end (insertion order). -/
def dictSet (kvs : Rec) (k : String) (v : PyVal) : Rec :=
  match kvs with
  | [] => [(k, v)]
  | (k2, v2) :: rest => if k2 = k then (k2, v) :: rest else (k2, v2) :: dictSet rest k v

/-- Field access on a PyVal that is known to be an object; none otherwise.
Used only to state properties about returned JSON objects. -/
def jGet (v : PyVal) : String → Option PyVal :=
  match v with
  | .obj kvs => fun k => dictGet kvs k
  | _ => fun _ => none

/-- Python truthiness: bool(v). None, False, 0, 0.0, empty string, empty
list and empty dict are falsy. -/
def pyTruthy : PyVal → Bool
  | .null => false
  | .bool b => b
  | .int i => i != 0
  | .float q => q != 0
  | .str s => s != ""
  | .arr xs => !xs.isEmpty
  | .obj kvs => !kvs.isEmpty

/-- Python isinstance(v, int) together with the integral value: true ints,
and bools (bool is a subclass of int in Python, True == 1 and False == 0).
Floats, strings, None, lists and dicts are not ints. -/
def pyAsInt : PyVal → Option Int
  | .int i => some i
  | .bool b => some (if b then 1 else 0)
  | _ => none

/-- Python len(v) for sized values (str, list, dict); none models the
TypeError len raises on None, bools and numbers. -/
def pyLen : PyVal → Option Int
  | .str s => some s.length
  | .arr xs => some xs.length
  | .obj kvs => some kvs.length
  | _ => none

/-- Python iteration (as in enumerate(v)): lists yield their elements,
strings yield their characters as one-character strings, dicts yield
their keys; none models the TypeError raised on non-iterables. -/
def pyIter : PyVal → Option (List PyVal)
  | .arr xs => some xs
  | .str s => some (s.toList.map (fun c => .str (String.mk [c])))
  | .obj kvs => some (kvs.map (fun p => .str p.1))
  | _ => none

mutual

/-- Python repr of a JSON-shaped value (used for elements inside the str
of a list or dict). The decimal rendering of floats is abstracted by the
rational toString. String escaping inside repr is not modelled. -/
def pyRepr : PyVal → String
  | .null => "None"
  | .bool true => "True"
  | .bool false => "False"
  | .int i => toString i
  | .float q => toString q
  | .str s => "\u0027" ++ s ++ "\u0027"
  | .arr xs => "[" ++ pyReprSep xs ++ "]"
  | .obj kvs => "\x7b" ++ pyReprKVSep kvs ++ "\x7d"

/-- Comma-separated reprs of list elements. -/
def pyReprSep : List PyVal → String
  | [] => ""
  | [x] => pyRepr x
  | x :: y :: rest => pyRepr x ++ ", " ++ pyReprSep (y :: rest)

/-- Comma-separated reprs of dict items. -/
def pyReprKVSep : List (String × PyVal) → String
  | [] => ""
  | [(k, v)] => "\u0027" ++ k ++ "\u0027: " ++ pyRepr v
  | (k, v) :: p :: rest => "\u0027" ++ k ++ "\u0027: " ++ pyRepr v ++ ", " ++ pyReprKVSep (p :: rest)

end

/-- Python str(v), as interpolated by an f-string: strings stay as they
are, containers render via repr of their elements. -/
def pyStr : PyVal → String
  | .null => "None"
  | .bool true => "True"
  | .bool false => "False"
  | .int i => toString i
  | .float q => toString q
  | .str s => s
  | .arr xs => "[" ++ pyReprSep xs ++ "]"
  | .obj kvs => "\x7b" ++ pyReprKVSep kvs ++ "\x7d"

/-- Code-point comparison of strings as lists of characters, as Python
compares str values: lexicographic, a strict prefix sorts first. -/
def charListLe : List Char → List Char → Bool
  | [], _ => true
  | _ :: _, [] => false
  | a :: as, b :: bs => if a < b then true else if b < a then false else charListLe as bs

/-- Python string less-or-equal (lexicographic by code point). -/
def strLe (a b : String) : Bool := charListLe a.toList b.toList

/-- Substring test (Python needle in hay), on characters. -/
def charListContains : List Char → List Char → Bool
  | _, [] => true
  | [], _ :: _ => false
  | x :: xs, needle =>
    if needle.isPrefixOf (x :: xs) then true else charListContains xs needle

/-- Python substring containment: needle in hay. -/
def strContains (hay needle : String) : Bool := charListContains hay.toList needle.toList

/-- Python str.strip(): drop whitespace from both ends. The whitespace set
is modelled by Char.isWhitespace (space, tab, newline, carriage return);
Python strips a slightly larger set, immaterial to the claims. -/
def pyStrip (s : String) : String :=
  String.mk ((s.toList.dropWhile Char.isWhitespace).reverse.dropWhile Char.isWhitespace).reverse

/-- Is this value a Python str. -/
def isStrVal : PyVal → Bool
  | .str _ => true
  | _ => false

/-- The element options[i] of the value options for 0 <= i < len(options),
followed by .split, as in line 188 of main.py: some s when the access
yields a str (so that split succeeds); none models the exception raised
otherwise (a non-str list element has no split attribute, and an int
subscript on a dict raises KeyError since JSON dict keys are strings). -/
def pyElemStr (v : PyVal) (i : Int) : Option String :=
  match v with
  | .str s => some (String.mk [s.toList.getD i.toNat ' '])
  | .arr xs =>
    match xs.get? i.toNat with
    | some (.str s) => some s
    | _ => none
  | _ => none

/-- Outcome of the loop body of generate_paper (lines 177-191) on one
question: an unhandled Python exception, the early error return for a
missing questionText, or fall-through to the next question with an
optional out-of-range warning (carrying the offending correctOptionIndex
value). -/
inductive QStep where
  | raise
  | errorReturn
  | next (warning : Option PyVal)

/-- One iteration of the validation loop of generate_paper (lines
177-191) on question q. Transcribed from main.py:
if not q.get(questionText) or not q[questionText].strip(): early return;
options = q.get(options, []); correct_idx = q.get(correctOptionIndex);
if not isinstance(correct_idx, int) or correct_idx < 0 or
correct_idx >= len(options): warning (the or short-circuits, so len is
only evaluated for a non-negative int index); the best-effort heuristic
(lines 187-191) computes options[correct_idx].split and then always
passes, so its only observable effect is the exception it can raise.
A non-dict question raises (q.get on a non-dict), and a truthy non-str
questionText raises (strip on a non-str). -/
def questionStep (q : PyVal) : QStep :=
  match q with
  | .obj kvs =>
    let qt := (dictGet kvs "questionText").getD .null
    if !pyTruthy qt then .errorReturn
    else
      match qt with
      | .str s =>
        if pyStrip s = "" then .errorReturn
        else
          let options := (dictGet kvs "options").getD (.arr [])
          let cidx := (dictGet kvs "correctOptionIndex").getD .null
          match pyAsInt cidx with
          | none => .next (some cidx)
          | some i =>
            if i < 0 then .next (some cidx)
            else
              match pyLen options with
              | none => .raise
              | some n =>
                if i ≥ n then .next (some cidx)
                else
                  match pyElemStr options i with
                  | some _ => .next none
                  | none => .raise
      | _ => .raise
  | _ => .raise

/-- Outcome of the whole validation loop: an unhandled exception, the
early error return, or completion with the recorded warnings as pairs of
the 0-based question index and the offending correctOptionIndex value. -/
inductive LoopResult where
  | raise
  | missingText
  | done (warnings : List (Nat × PyVal))

/-- The validation loop of generate_paper over the questions list,
starting at 0-based index idx. The early return aborts the loop at the
first defective questionText; warnings accumulate in question order. -/
def runQuestions : List PyVal → Nat → LoopResult
  | [], _ => .done []
  | q :: rest, idx =>
    match questionStep q with
    | .raise => .raise
    | .errorReturn => .missingText
    | .next w =>
      match runQuestions rest (idx + 1) with
      | .raise => .raise
      | .missingText => .missingText
      | .done ws =>
        .done ((match w with | some v => [(idx, v)] | none => []) ++ ws)

/-- The error message of the early return (line 179 of main.py). -/
def errMsg : String := "AI response missing questionText in one or more questions."

/-- The warning string of line 184 of main.py, for the question at 0-based
index idx with offending correctOptionIndex value v (the f-string uses
the 1-based position idx+1 and str(v)). -/
def warnMsg (idx : Nat) (v : PyVal) : String :=
  "Question " ++ toString (idx + 1) ++ ": correctOptionIndex " ++ pyStr v ++ " is out of range."

/-- The validation phase of the generate_paper endpoint (lines 174-194 of
main.py), applied to the parsed Gateway response. some v is the HTTP 200
response body v; none models an unhandled Python exception (FastAPI then
returns a generic 500, not an HTTP 200 payload). Transcribed from the
source: questions defaults to [] via result.get; on a defective
questionText the endpoint returns a fresh dict with only the error and
raw_response keys; otherwise the warnings list, when non-empty, is
attached to the result dict under the warnings key. -/
def generate_paper_validate (result : PyVal) : Option PyVal :=
  match result with
  | .obj kvs =>
    match pyIter ((dictGet kvs "questions").getD (.arr [])) with
    | none => none
    | some qs =>
      match runQuestions qs 0 with
      | .raise => none
      | .missingText =>
        some (.obj [("error", .str errMsg), ("raw_response", .obj kvs)])
      | .done ws =>
        if ws.isEmpty then some (.obj kvs)
        else some (.obj (dictSet kvs "warnings"
          (.arr (ws.map (fun p => .str (warnMsg p.1 p.2))))))
  | _ => none

/-- Claim-side predicate: the questionText of a question object is absent,
null, empty, or whitespace-only (the hard-failure condition of the spec). -/
def qtDefective (q : PyVal) : Bool :=
  match q with
  | .obj kvs =>
    match dictGet kvs "questionText" with
    | none => true
    | some .null => true
    | some (.str s) => pyStrip s = ""
    | some _ => false
  | _ => false

/-- The questionText field is absent, null, or a str: the shapes on which
line 178 of main.py cannot raise. -/
def strOrNothing : Option PyVal → Bool
  | none => true
  | some .null => true
  | some (.str _) => true
  | some _ => false

/-- The options field is absent or an array of strings: the shapes on
which lines 181-191 of main.py cannot raise. -/
def optionsWellFormed : Option PyVal → Bool
  | none => true
  | some (.arr os) => os.all isStrVal
  | some _ => false

/-- A question object on which the validation loop body cannot raise: a
dict whose questionText is absent, null or a str, and whose options field
is absent or an array of strings. -/
def wellFormedQ (q : PyVal) : Bool :=
  match q with
  | .obj kvs =>
    strOrNothing (dictGet kvs "questionText") && optionsWellFormed (dictGet kvs "options")
  | _ => false

/-- The correctOptionIndex value of a question object (None when absent),
as read on line 182 of main.py. -/
def cidxOf (q : PyVal) : PyVal :=
  match q with
  | .obj kvs => (dictGet kvs "correctOptionIndex").getD .null
  | _ => .null

/-- Claim-side predicate: correctOptionIndex is not an integer (in the
Python sense, where bools count as ints) or lies outside
[0, len(options)-1], options defaulting to []. -/
def badIndexQ (q : PyVal) : Bool :=
  match q with
  | .obj kvs =>
    match pyAsInt ((dictGet kvs "correctOptionIndex").getD .null) with
    | none => true
    | some i =>
      decide (i < 0) || decide (i ≥ (pyLen ((dictGet kvs "options").getD (.arr []))).getD 0)
  | _ => false

/-- The expected warning records for a question list starting at 0-based
index idx: one (position, offending value) pair per question failing the
index check, in question order. -/
def expectedWarns : Nat → List PyVal → List (Nat × PyVal)
  | _, [] => []
  | idx, q :: rest =>
    (if badIndexQ q then [(idx, cidxOf q)] else []) ++ expectedWarns (idx + 1) rest

/-- For a list of str values, the element access of the heuristic line
succeeds at every in-range index. -/
theorem pyElemStr_all_str (os : List PyVal) (h : os.all isStrVal = true) (i : Int)
    (h0 : 0 ≤ i) (hl : i < (os.length : Int)) : ∃ s, pyElemStr (.arr os) i = some s := by
  have hlt : i.toNat < os.length := by omega
  have hget : os.get? i.toNat = some (os.get ⟨i.toNat, hlt⟩) := List.get?_eq_get hlt
  have hmem : os.get ⟨i.toNat, hlt⟩ ∈ os := os.get_mem _ _
  have hstr : isStrVal (os.get ⟨i.toNat, hlt⟩) = true := by
    exact List.all_eq_true.mp h _ hmem
  cases hv : os.get ⟨i.toNat, hlt⟩ with
  | str s =>
    refine ⟨s, ?_⟩
    simp only [pyElemStr]
    rw [hget, hv]
  | null => rw [hv] at hstr; simp [isStrVal] at hstr
  | bool b => rw [hv] at hstr; simp [isStrVal] at hstr
  | int n => rw [hv] at hstr; simp [isStrVal] at hstr
  | float q => rw [hv] at hstr; simp [isStrVal] at hstr
  | arr xs => rw [hv] at hstr; simp [isStrVal] at hstr
  | obj kvs => rw [hv] at hstr; simp [isStrVal] at hstr

/-- On a well-formed question the loop body never raises: it either takes
the early error return (exactly when the questionText is defective) or
falls through, warning exactly when the index check of the claim fails. -/
theorem questionStep_char (q : PyVal) (hw : wellFormedQ q = true) :
    questionStep q =
      if qtDefective q then QStep.errorReturn
      else QStep.next (if badIndexQ q then some (cidxOf q) else none) := by
  cases q with
  | null => simp [wellFormedQ] at hw
  | bool b => simp [wellFormedQ] at hw
  | int i => simp [wellFormedQ] at hw
  | float qq => simp [wellFormedQ] at hw
  | str s => simp [wellFormedQ] at hw
  | arr xs => simp [wellFormedQ] at hw
  | obj kvs =>
    simp only [wellFormedQ, Bool.and_eq_true] at hw
    obtain ⟨hqt, hopt⟩ := hw
    cases hq : dictGet kvs "questionText" with
    | none =>
      simp [questionStep, qtDefective, hq, pyTruthy]
    | some v =>
      cases v with
      | null => simp [questionStep, qtDefective, hq, pyTruthy]
      | bool b => rw [hq] at hqt; simp [strOrNothing] at hqt
      | int n => rw [hq] at hqt; simp [strOrNothing] at hqt
      | float qq => rw [hq] at hqt; simp [strOrNothing] at hqt
      | arr xs => rw [hq] at hqt; simp [strOrNothing] at hqt
      | obj kvs2 => rw [hq] at hqt; simp [strOrNothing] at hqt
      | str s =>
        by_cases hs : s = ""
        · subst hs
          simp [questionStep, qtDefective, hq, pyTruthy, pyStrip]
        · by_cases hstrip : pyStrip s = ""
          · simp [questionStep, qtDefective, hq, pyTruthy, hs, hstrip]
          · -- questionText passes; the index part
            have holen : ∃ olen : Int, ∃ os : List PyVal,
                (dictGet kvs "options").getD (.arr []) = .arr os ∧
                os.all isStrVal = true ∧
                pyLen ((dictGet kvs "options").getD (.arr [])) = some olen ∧
                (os.length : Int) = olen := by
              cases ho : dictGet kvs "options" with
              | none => exact ⟨0, [], by simp [ho], rfl, by simp [ho, pyLen], rfl⟩
              | some ov =>
                rw [ho] at hopt
                cases ov with
                | arr os =>
                  exact ⟨os.length, os, by simp [ho], by
                    simpa [optionsWellFormed] using hopt, by simp [ho, pyLen], rfl⟩
                | null => simp [optionsWellFormed] at hopt
                | bool b => simp [optionsWellFormed] at hopt
                | int n => simp [optionsWellFormed] at hopt
                | float qq => simp [optionsWellFormed] at hopt
                | str s2 => simp [optionsWellFormed] at hopt
                | obj kvs2 => simp [optionsWellFormed] at hopt
            obtain ⟨olen, os, hos, hall, hplen, hlen⟩ := holen
            cases hc : pyAsInt ((dictGet kvs "correctOptionIndex").getD .null) with
            | none =>
              simp [questionStep, qtDefective, badIndexQ, cidxOf, hq, pyTruthy, hs, hstrip, hc]
            | some i =>
              by_cases hneg : i < 0
              · simp [questionStep, qtDefective, badIndexQ, cidxOf, hq, pyTruthy, hs, hstrip,
                  hc, hplen, hneg]
              · by_cases hge : i ≥ olen
                · have : ¬ (i < olen) := by omega
                  simp [questionStep, qtDefective, badIndexQ, cidxOf, hq, pyTruthy, hs,
                    hstrip, hc, hplen, hneg, hge]
                · have h0 : 0 ≤ i := by omega
                  have hl : i < (os.length : Int) := by omega
                  obtain ⟨es, hes⟩ := pyElemStr_all_str os hall i h0 hl
                  rw [← hos] at hes
                  simp [questionStep, qtDefective, badIndexQ, cidxOf, hq, pyTruthy, hs,
                    hstrip, hc, hplen, hneg, hge, hes]

/-- On well-formed questions, the loop takes the early error return as
soon as some question has a defective questionText. -/
theorem runQuestions_missing (qs : List PyVal)
    (hw : ∀ q ∈ qs, wellFormedQ q = true)
    (hd : ∃ q ∈ qs, qtDefective q = true) (idx : Nat) :
    runQuestions qs idx = .missingText := by
  induction qs generalizing idx with
  | nil =>
    obtain ⟨q, hq, _⟩ := hd
    cases hq
  | cons q rest ih =>
    have hwq := hw q (List.mem_cons_self _ _)
    by_cases hdq : qtDefective q = true
    · simp [runQuestions, questionStep_char q hwq, hdq]
    · obtain ⟨p, hp, hpd⟩ := hd
      rcases List.mem_cons.mp hp with rfl | hp2
      · exact absurd hpd hdq
      · have hrest := ih (fun r hr => hw r (List.mem_cons_of_mem _ hr)) ⟨p, hp2, hpd⟩ (idx + 1)
        simp [runQuestions, questionStep_char q hwq, hdq, hrest]

/-- On well-formed questions with no defective questionText, the loop
completes and records exactly the expected warnings. -/
theorem runQuestions_done (qs : List PyVal)
    (hw : ∀ q ∈ qs, wellFormedQ q = true)
    (hnd : ∀ q ∈ qs, qtDefective q = false) (idx : Nat) :
    runQuestions qs idx = .done (expectedWarns idx qs) := by
  induction qs generalizing idx with
  | nil => rfl
  | cons q rest ih =>
    have hwq := hw q (List.mem_cons_self _ _)
    have hndq := hnd q (List.mem_cons_self _ _)
    have hrest := ih (fun r hr => hw r (List.mem_cons_of_mem _ hr))
      (fun r hr => hnd r (List.mem_cons_of_mem _ hr)) (idx + 1)
    by_cases hb : badIndexQ q = true
    · simp [runQuestions, questionStep_char q hwq, hndq, hb, hrest, expectedWarns]
    · simp [runQuestions, questionStep_char q hwq, hndq, hb, hrest, expectedWarns]

/-- Assigning a key into a dict makes it readable at that key. -/
theorem dictGet_dictSet_self (kvs : Rec) (k : String) (v : PyVal) :
    dictGet (dictSet kvs k v) k = some v := by
  induction kvs with
  | nil => simp [dictSet, dictGet]
  | cons p rest ih =>
    obtain ⟨k2, v2⟩ := p
    by_cases h : k2 = k
    · simp [dictSet, dictGet, h]
    · simp [dictSet, dictGet, h, ih]

/-- The expected warnings are the in-order enumeration of the questions,
filtered to those failing the index check, each contributing its 0-based
position and offending value. -/
theorem expectedWarns_enumFrom (qs : List PyVal) (idx : Nat) :
    expectedWarns idx qs =
      ((List.enumFrom idx qs).filter (fun p => badIndexQ p.2)).map
        (fun p => (p.1, cidxOf p.2)) := by
  induction qs generalizing idx with
  | nil => rfl
  | cons q rest ih =>
    by_cases hb : badIndexQ q = true
    · simp [expectedWarns, List.enumFrom, hb, ih]
    · simp [expectedWarns, List.enumFrom, hb, ih]

/-- C10: for a Gateway response that is a JSON object with no questions
key, or with an empty questions array, validation passes vacuously and
the object is returned unchanged (HTTP 200), with no error and nothing
attached. -/
theorem generate_paper_validate_vacuous (kvs : Rec)
    (hq : dictGet kvs "questions" = none ∨ dictGet kvs "questions" = some (.arr [])) :
    generate_paper_validate (.obj kvs) = some (.obj kvs) := by
  rcases hq with h | h <;>
    simp [generate_paper_validate, h, pyIter, runQuestions, List.isEmpty]

/-- C10 witness: a concrete object with a title and no questions key is
returned unchanged. -/
theorem generate_paper_validate_vacuous_witness :
    generate_paper_validate (.obj [("title", .str "T")]) = some (.obj [("title", .str "T")]) :=
  generate_paper_validate_vacuous [("title", .str "T")] (Or.inl rfl)

/-- C2 (amended): on a response whose questions are all well formed (dict
questions whose questionText, if present and truthy, is a str, and whose
options are absent or an array of strings), if some question has an
absent, null, empty or whitespace-only questionText, the endpoint
aborts the whole batch with the HTTP 200 payload containing exactly an
error field and a raw_response field equal to the full original parsed
response, and no warnings field. Without the well-formedness proviso the
claim as stated is refuted by generate_paper_missingText_cex: a truthy
non-str questionText in an earlier question raises an unhandled
exception (HTTP 500) before the defective question is reached. -/
theorem generate_paper_missingText (kvs : Rec) (qs : List PyVal)
    (hq : dictGet kvs "questions" = some (.arr qs))
    (hw : ∀ q ∈ qs, wellFormedQ q = true)
    (hd : ∃ q ∈ qs, qtDefective q = true) :
    generate_paper_validate (.obj kvs) =
      some (.obj [("error", .str errMsg), ("raw_response", .obj kvs)]) ∧
    jGet (.obj [("error", .str errMsg), ("raw_response", .obj kvs)]) "error" =
      some (.str errMsg) ∧
    jGet (.obj [("error", .str errMsg), ("raw_response", .obj kvs)]) "raw_response" =
      some (.obj kvs) ∧
    jGet (.obj [("error", .str errMsg), ("raw_response", .obj kvs)]) "warnings" = none := by
  refine ⟨?_, by simp [jGet, dictGet], by simp [jGet, dictGet], by simp [jGet, dictGet]⟩
  simp [generate_paper_validate, hq, pyIter, runQuestions_missing qs hw hd 0]

/-- First question of the C2 counterexample: questionText is the int 5
(truthy, not a str). -/
def cexC2q1 : PyVal := .obj [("questionText", .int 5)]

/-- Second question of the C2 counterexample: questionText is the empty
string. -/
def cexC2q2 : PyVal := .obj [("questionText", .str "")]

/-- The C2 counterexample response: question 2 has an empty questionText. -/
def cexC2 : PyVal := .obj [("questions", .arr [cexC2q1, cexC2q2])]

/-- C2 counterexample: question 2 of this parsed response has an empty
questionText, so the claim as stated promises the HTTP 200 error payload
regardless of defects in other questions; but the code raises an
unhandled AttributeError on question 1 (int 5 is truthy and has no strip
attribute), modelled by none, so no HTTP 200 payload is produced. -/
theorem generate_paper_missingText_cex :
    jGet cexC2 "questions" = some (.arr [cexC2q1, cexC2q2]) ∧
    qtDefective cexC2q2 = true ∧
    generate_paper_validate cexC2 = none :=
  ⟨rfl, rfl, rfl⟩

/-- First question of the C2 witness: fully valid. -/
def wC2q1 : PyVal := .obj [("questionText", .str "Valid? (ठीक?)"),
  ("options", .arr [.str "A", .str "B", .str "C", .str "D"]),
  ("correctOptionIndex", .int 1)]

/-- Second question of the C2 witness: whitespace-only questionText. -/
def wC2q2 : PyVal := .obj [("questionText", .str "  ")]

/-- The C2 witness question list. -/
def wC2qs : List PyVal := [wC2q1, wC2q2]

/-- The C2 witness response object. -/
def wC2kvs : Rec := [("title", .str "T"), ("questions", .arr wC2qs)]

/-- C2 witness: on a concrete response whose second question has a
whitespace-only questionText, the endpoint returns the error payload
carrying the full original response. -/
theorem generate_paper_missingText_witness :
    generate_paper_validate (.obj wC2kvs) =
      some (.obj [("error", .str errMsg), ("raw_response", .obj wC2kvs)]) :=
  (generate_paper_missingText wC2kvs wC2qs rfl (by decide)
    ⟨wC2q2, List.mem_cons_of_mem _ (List.mem_cons_self _ _), rfl⟩).1

/-- C3 (amended): on a response whose questions are all well formed and
none has a defective questionText, the endpoint returns the response
unchanged when no question fails the index check, and otherwise returns
the response with the warnings attached in question order under the
warnings key, one warning per failing question carrying its 1-based
position and the offending value; the expected warnings are exactly the
enumeration of the questions filtered to those whose correctOptionIndex
is not an int or is outside [0, len(options)-1]. Without the
well-formedness proviso the claim as stated is refuted by
generate_paper_warnings_cex: a non-str option element at an in-range
index makes the heuristic of line 188 raise an unhandled exception. -/
theorem generate_paper_warnings_char (kvs : Rec) (qs : List PyVal)
    (hq : dictGet kvs "questions" = some (.arr qs))
    (hw : ∀ q ∈ qs, wellFormedQ q = true)
    (hnd : ∀ q ∈ qs, qtDefective q = false) :
    (expectedWarns 0 qs = [] → generate_paper_validate (.obj kvs) = some (.obj kvs)) ∧
    (∀ w ws, expectedWarns 0 qs = w :: ws →
      generate_paper_validate (.obj kvs) =
        some (.obj (dictSet kvs "warnings"
          (.arr ((expectedWarns 0 qs).map (fun p => PyVal.str (warnMsg p.1 p.2)))))) ∧
      jGet (.obj (dictSet kvs "warnings"
          (.arr ((expectedWarns 0 qs).map (fun p => PyVal.str (warnMsg p.1 p.2)))))) "warnings" =
        some (.arr ((expectedWarns 0 qs).map (fun p => PyVal.str (warnMsg p.1 p.2))))) ∧
    expectedWarns 0 qs =
      (qs.enum.filter (fun p => badIndexQ p.2)).map (fun p => (p.1, cidxOf p.2)) := by
  have hrun := runQuestions_done qs hw hnd 0
  refine ⟨?_, ?_, ?_⟩
  · intro he
    simp [generate_paper_validate, hq, pyIter, hrun, he, List.isEmpty]
  · intro w ws he
    constructor
    · rw [he] at hrun
      rw [he]
      simp [generate_paper_validate, hq, pyIter, hrun, List.isEmpty]
    · simp [jGet, dictGet_dictSet_self]
  · have h := expectedWarns_enumFrom qs 0
    simpa [List.enum] using h

/-- The C3 counterexample question: valid questionText, in-range
correctOptionIndex 0, but the option at index 0 is the int 7, not a str. -/
def cexC3q : PyVal := .obj [("questionText", .str "Q"),
  ("options", .arr [.int 7]), ("correctOptionIndex", .int 0)]

/-- The C3 counterexample response. -/
def cexC3 : PyVal := .obj [("questions", .arr [cexC3q])]

/-- C3 counterexample: every questionText is non-empty and the single
question passes the index check (so the claim as stated promises the
object back with no warnings field and processing to continue); but the
heuristic of line 188 calls split on the non-str option element and the
endpoint raises an unhandled AttributeError, modelled by none: no object
is returned at all. -/
theorem generate_paper_warnings_cex :
    jGet cexC3 "questions" = some (.arr [cexC3q]) ∧
    qtDefective cexC3q = false ∧
    badIndexQ cexC3q = false ∧
    generate_paper_validate cexC3 = none :=
  ⟨rfl, rfl, rfl, rfl⟩

/-- First question of the C3 witness: valid, index 0 in range. -/
def wC3q1 : PyVal := .obj [("questionText", .str "Q1? (प्र1?)"),
  ("options", .arr [.str "A", .str "B", .str "C", .str "D"]),
  ("correctOptionIndex", .int 0), ("explanation", .str "ok")]

/-- Second question of the C3 witness: correctOptionIndex 5 with 4
options, as in the spec scenario. -/
def wC3q2 : PyVal := .obj [("questionText", .str "Q2? (प्र2?)"),
  ("options", .arr [.str "A", .str "B", .str "C", .str "D"]),
  ("correctOptionIndex", .int 5)]

/-- The C3 witness question list. -/
def wC3qs : List PyVal := [wC3q1, wC3q2]

/-- The C3 witness response object. -/
def wC3kvs : Rec := [("title", .str "Sample Exam Mock Test"),
  ("duration", .int 60), ("questions", .arr wC3qs)]

/-- C3 witness: on the concrete response whose second question has
correctOptionIndex 5 and 4 options, exactly one warning is attached under
the warnings key, referencing position 2 and the value 5, and the batch
is not rejected. -/
theorem generate_paper_warnings_witness :
    generate_paper_validate (.obj wC3kvs) =
      some (.obj (dictSet wC3kvs "warnings"
        (.arr ((expectedWarns 0 wC3qs).map (fun p => PyVal.str (warnMsg p.1 p.2)))))) ∧
    expectedWarns 0 wC3qs = [(1, .int 5)] ∧
    (expectedWarns 0 wC3qs).map (fun p => PyVal.str (warnMsg p.1 p.2)) =
      [.str "Question 2: correctOptionIndex 5 is out of range."] :=
  ⟨((generate_paper_warnings_char wC3kvs wC3qs rfl (by decide) (by decide)).2.1
      (1, .int 5) [] rfl).1, rfl, rfl⟩

/-- The id comparison of line 112: t.get("id") != test_id keeps the
record. A record bears the id exactly when its id field is a str equal to
test_id (Python == between a str and any non-str value, including an
absent field read as None, is False). -/
def recHasId (t : Rec) (tid : String) : Bool :=
  match dictGet t "id" with
  | some (.str s) => s = tid
  | _ => false

/-- DELETE /api/tests/test_id (delete_a_test, lines 107-118): the list
comprehension keeps every record whose id differs from test_id; when the
length is unchanged the endpoint raises 404 before any save, modelled by
none (the persisted store is untouched); otherwise the filtered list is
saved and becomes the new store. -/
def delete_a_test (tests : List Rec) (test_id : String) : Option (List Rec) :=
  let remaining := tests.filter (fun t => !recHasId t test_id)
  if remaining.length = tests.length then none
  else some remaining

/-- A filter keeps the length exactly when every element passes. -/
theorem filter_length_eq_iff {α : Type} (l : List α) (p : α → Bool) :
    ((l.filter p).length = l.length) ↔ ∀ t ∈ l, p t = true := by
  induction l with
  | nil => simp
  | cons x xs ih =>
    by_cases hp : p x = true
    · simp [List.filter_cons, hp, ih]
    · have hle := List.length_filter_le p xs
      constructor
      · intro h
        rw [List.filter_cons] at h
        simp [hp] at h
        omega
      · intro h
        exact absurd (h x (List.mem_cons_self _ _)) hp

/-- C1 (amended): DELETE removes every record bearing the given id (in
particular exactly that record when no other record shares the id,
leaving every other record with its original field values in their
original order), and yields 404 with the store unchanged exactly when no
record bears the id. The claim as stated (it removes exactly one record)
is refuted on a store holding two records with the same id, see
delete_a_test_cex; the spec itself notes that id uniqueness is not
enforced by the store. -/
theorem delete_a_test_char (tests : List Rec) (tid : String) :
    (delete_a_test tests tid = none ↔ ∀ t ∈ tests, recHasId t tid = false) ∧
    ((∃ t ∈ tests, recHasId t tid = true) →
      delete_a_test tests tid = some (tests.filter (fun t => !recHasId t tid))) ∧
    (∀ pre t post, tests = pre ++ t :: post → recHasId t tid = true →
      (∀ u, (u ∈ pre ∨ u ∈ post) → recHasId u tid = false) →
      delete_a_test tests tid = some (pre ++ post)) := by
  have hchar : (tests.filter (fun t => !recHasId t tid)).length = tests.length ↔
      ∀ t ∈ tests, recHasId t tid = false := by
    rw [filter_length_eq_iff]
    constructor
    · intro h t ht
      have := h t ht
      simpa using this
    · intro h t ht
      simp [h t ht]
  refine ⟨?_, ?_, ?_⟩
  · constructor
    · intro h
      by_cases hl : (tests.filter (fun t => !recHasId t tid)).length = tests.length
      · exact hchar.mp hl
      · simp [delete_a_test, hl] at h
    · intro h
      simp [delete_a_test, hchar.mpr h]
  · intro ⟨t, ht, hid⟩
    have hne : ¬ ((tests.filter (fun t => !recHasId t tid)).length = tests.length) := by
      rw [hchar]
      intro hall
      rw [hall t ht] at hid
      cases hid
    simp [delete_a_test, hne]
  · intro pre t post hsplit hid hothers
    subst hsplit
    have hfil : (pre ++ t :: post).filter (fun t => !recHasId t tid) = pre ++ post := by
      rw [List.filter_append, List.filter_cons]
      have h1 : pre.filter (fun t => !recHasId t tid) = pre := by
        rw [List.filter_eq_self]
        intro u hu
        simp [hothers u (Or.inl hu)]
      have h2 : post.filter (fun t => !recHasId t tid) = post := by
        rw [List.filter_eq_self]
        intro u hu
        simp [hothers u (Or.inr hu)]
      simp [hid, h1, h2]
    have hne : ¬ (((pre ++ t :: post).filter (fun t => !recHasId t tid)).length =
        (pre ++ t :: post).length) := by
      rw [hfil]
      simp only [List.length_append, List.length_cons]
      omega
    simp [delete_a_test, hne, hfil]

/-- First record of the C1 counterexample store: id a, title t1. -/
def cexC1a : Rec := [("id", .str "a"), ("title", .str "t1")]

/-- Second record of the C1 counterexample store: the same id a, title t2. -/
def cexC1b : Rec := [("id", .str "a"), ("title", .str "t2")]

/-- C1 counterexample: both records of the store bear the id a, and
deleting a removes both, leaving the empty store: the endpoint does not
remove exactly one record, and a record other than the deleted one (the
second, with title t2) does not survive with its original field values. -/
theorem delete_a_test_cex :
    recHasId cexC1a "a" = true ∧ recHasId cexC1b "a" = true ∧
    delete_a_test [cexC1a, cexC1b] "a" = some [] :=
  ⟨rfl, rfl, rfl⟩

/-- The C1 witness store: three records with distinct ids. -/
def wC1a : Rec := [("id", .str "a"), ("title", .str "first")]

/-- Second C1 witness record. -/
def wC1b : Rec := [("id", .str "b"), ("title", .str "second")]

/-- Third C1 witness record. -/
def wC1c : Rec := [("id", .str "c"), ("title", .str "third")]

/-- C1 witness: deleting the unique record with id b removes exactly that
record and leaves the other two with their original field values and
order; deleting the absent id z yields 404 with no save. -/
theorem delete_a_test_witness :
    delete_a_test [wC1a, wC1b, wC1c] "b" = some [wC1a, wC1c] ∧
    delete_a_test [wC1a, wC1b, wC1c] "z" = none :=
  ⟨(delete_a_test_char [wC1a, wC1b, wC1c] "b").2.2 [wC1a] wC1b [wC1c] rfl rfl
      (fun u hu => by
        rcases hu with h | h <;> rw [List.mem_singleton.mp h] <;> rfl),
    (delete_a_test_char [wC1a, wC1b, wC1c] "z").1.mpr (by decide)⟩

/-- Code-point comparison is reflexive. -/
theorem charListLe_refl (as : List Char) : charListLe as as = true := by
  induction as with
  | nil => rfl
  | cons a rest ih => simp [charListLe, lt_irrefl, ih]

/-- Code-point comparison is total. -/
theorem charListLe_total (as bs : List Char) (h : charListLe as bs = false) :
    charListLe bs as = true := by
  induction as generalizing bs with
  | nil => cases h
  | cons a as ih =>
    cases bs with
    | nil => rfl
    | cons b bs =>
      rcases lt_trichotomy a b with hab | hab | hab
      · simp [charListLe, hab] at h
      · subst hab
        simp only [charListLe, lt_irrefl, if_false] at h ⊢
        exact ih bs h
      · simp [charListLe, hab, lt_asymm hab]

/-- Code-point comparison is transitive. -/
theorem charListLe_trans (as bs cs : List Char)
    (h1 : charListLe as bs = true) (h2 : charListLe bs cs = true) :
    charListLe as cs = true := by
  induction as generalizing bs cs with
  | nil => rfl
  | cons a as ih =>
    cases bs with
    | nil => simp [charListLe] at h1
    | cons b bs =>
      cases cs with
      | nil => simp [charListLe] at h2
      | cons c cs =>
        rcases lt_trichotomy a b with hab | hab | hab
        · rcases lt_trichotomy b c with hbc | hbc | hbc
          · simp [charListLe, lt_trans hab hbc]
          · subst hbc
            simp [charListLe, hab]
          · simp [charListLe, hbc, lt_asymm hbc] at h2
        · subst hab
          rcases lt_trichotomy a c with hac | hac | hac
          · simp [charListLe, hac]
          · subst hac
            simp only [charListLe, lt_irrefl, if_false] at h1 h2 ⊢
            exact ih bs cs h1 h2
          · simp [charListLe, hac, lt_asymm hac] at h2
        · simp [charListLe, hab, lt_asymm hab] at h1

/-- String comparison (Python str ordering) is total. -/
theorem strLe_total (a b : String) (h : strLe a b = false) : strLe b a = true :=
  charListLe_total _ _ h

/-- String comparison is transitive. -/
theorem strLe_trans (a b c : String) (h1 : strLe a b = true) (h2 : strLe b c = true) :
    strLe a c = true :=
  charListLe_trans _ _ _ h1 h2

/-- Strictly greater strings are unequal. -/
theorem strLe_false_ne (a b : String) (h : strLe a b = false) : a ≠ b := by
  intro hh
  subst hh
  rw [strLe, charListLe_refl] at h
  cases h

/-- The sort key of line 96: x.get("createdAt", ""), so a record missing
the field sorts as the empty string. some for the default or a str value
(the only cases in which Python list.sort cannot raise a TypeError
comparing this key with a string key); none for a present non-str value. -/
def createdAtKey (r : Rec) : Option String :=
  match dictGet r "createdAt" with
  | none => some ""
  | some (.str s) => some s
  | some _ => none

/-- The sort key, defaulting to the empty string (used only under the
guard that createdAtKey is some). -/
def keyD (r : Rec) : String := (createdAtKey r).getD ""

/-- Stable insertion for the descending sort: the record goes in front of
the first element whose key is less than or equal to its own, so records
with equal keys keep the earlier-inserted one first. -/
def insertDesc (r : Rec) : List Rec → List Rec
  | [] => [r]
  | x :: xs => if strLe (keyD x) (keyD r) then r :: x :: xs else x :: insertDesc r xs

/-- The semantics of tests.sort(key=lambda x: x.get("createdAt", ""),
reverse=True) on line 96: a stable sort by the key, descending. Python
list.sort is stable and reverse=True does not reorder equal keys; a
stable sort by a total preorder is extensionally unique, so insertion
sort is a faithful model of Timsort here. -/
def sortByCreatedAtDesc : List Rec → List Rec
  | [] => []
  | r :: rs => insertDesc r (sortByCreatedAtDesc rs)

/-- GET /api/tests (get_all_tests, lines 91-97): loads the store and
returns it sorted by creation date, newest first. none models the
TypeError that Python list.sort raises when keys of distinct types are
compared (conservatively triggered whenever some record carries a
present non-str createdAt; a store whose keys are uniformly of one
non-str type would sort in Python, a case outside every claim, which all
presuppose string comparison). -/
def get_all_tests (tests : List Rec) : Option (List Rec) :=
  if tests.all (fun r => (createdAtKey r).isSome) then some (sortByCreatedAtDesc tests)
  else none

/-- Inserting permutes the consed list. -/
theorem insertDesc_perm (r : Rec) (l : List Rec) : (insertDesc r l).Perm (r :: l) := by
  induction l with
  | nil => exact List.Perm.refl _
  | cons x xs ih =>
    by_cases h : strLe (keyD x) (keyD r) = true
    · simp [insertDesc, h]
    · simp only [insertDesc, h, if_false]
      exact (ih.cons x).trans (List.Perm.swap r x xs)

/-- Sorting permutes the list. -/
theorem sortDesc_perm (l : List Rec) : (sortByCreatedAtDesc l).Perm l := by
  induction l with
  | nil => exact List.Perm.refl _
  | cons r rs ih =>
    exact (insertDesc_perm r _).trans (ih.cons r)

/-- Inserting into a list with pairwise non-increasing keys preserves
that shape. -/
theorem insertDesc_pairwise (r : Rec) (l : List Rec)
    (h : l.Pairwise (fun a b => strLe (keyD b) (keyD a) = true)) :
    (insertDesc r l).Pairwise (fun a b => strLe (keyD b) (keyD a) = true) := by
  induction l with
  | nil => simp [insertDesc]
  | cons x xs ih =>
    have hx := (List.pairwise_cons.mp h).1
    have hxs := (List.pairwise_cons.mp h).2
    by_cases hle : strLe (keyD x) (keyD r) = true
    · simp only [insertDesc, hle, if_true]
      apply List.Pairwise.cons
      · intro y hy
        rcases List.mem_cons.mp hy with rfl | hy2
        · exact hle
        · exact strLe_trans _ _ _ (hx y hy2) hle
      · exact h
    · simp only [insertDesc, hle, if_false]
      apply List.Pairwise.cons
      · intro y hy
        have hy2 : y ∈ r :: xs := (insertDesc_perm r xs).mem_iff.mp hy
        rcases List.mem_cons.mp hy2 with rfl | hy3
        · exact strLe_total _ _ (Bool.not_eq_true _ ▸ Bool.of_not_eq_true hle)
        · exact hx y hy3
      · exact ih hxs

/-- The sorted output has pairwise non-increasing keys. -/
theorem sortDesc_pairwise (l : List Rec) :
    (sortByCreatedAtDesc l).Pairwise (fun a b => strLe (keyD b) (keyD a) = true) := by
  induction l with
  | nil => simp [sortByCreatedAtDesc]
  | cons r rs ih => exact insertDesc_pairwise r _ ih

/-- Stability of the insertion: restricted to any one key value, the
inserted element lands in front of none of the equal-key elements
already present only when it was inserted later, i.e. the filter by a
key is the filter of the consed list. -/
theorem insertDesc_filter (r : Rec) (l : List Rec) (s : String) :
    (insertDesc r l).filter (fun t => keyD t == s) =
      if keyD r = s then r :: l.filter (fun t => keyD t == s)
      else l.filter (fun t => keyD t == s) := by
  induction l with
  | nil =>
    by_cases h : keyD r = s
    · have hb : (keyD r == s) = true := beq_iff_eq.mpr h
      simp [insertDesc, List.filter, hb, h]
    · have hb : (keyD r == s) = false := by simp [beq_iff_eq, h]
      simp [insertDesc, List.filter, hb, h]
  | cons x xs ih =>
    by_cases hle : strLe (keyD x) (keyD r) = true
    · simp only [insertDesc]
      rw [if_pos hle]
      by_cases h : keyD r = s
      · simp [List.filter_cons, beq_iff_eq, h]
      · simp [List.filter_cons, beq_iff_eq, h]
    · simp only [insertDesc]
      rw [if_neg hle]
      have hlt : strLe (keyD x) (keyD r) = false := Bool.of_not_eq_true hle
      have hne : keyD x ≠ keyD r := strLe_false_ne _ _ hlt
      by_cases h : keyD r = s
      · have hxs : ¬ (keyD x = s) := fun hh => hne (hh.trans h.symm)
        simp [List.filter_cons, beq_iff_eq, h, hxs, ih]
      · by_cases hxv : keyD x = s
        · simp [List.filter_cons, beq_iff_eq, h, hxv, ih]
        · simp [List.filter_cons, beq_iff_eq, h, hxv, ih]

/-- Stability of the sort: for every key value, the records carrying that
key appear in the output exactly as they appear in the input (relative
insertion order preserved). -/
theorem sortDesc_filter (l : List Rec) (s : String) :
    (sortByCreatedAtDesc l).filter (fun t => keyD t == s) =
      l.filter (fun t => keyD t == s) := by
  induction l with
  | nil => rfl
  | cons r rs ih =>
    by_cases h : keyD r = s
    · simp [sortByCreatedAtDesc, insertDesc_filter, h, List.filter_cons, ih]
    · simp [sortByCreatedAtDesc, insertDesc_filter, h, List.filter_cons, ih]

/-- C4: on a store whose records all have an absent or string createdAt
(the only shapes on which the string comparison of the claim is defined;
Python raises otherwise), GET /api/tests returns a permutation of the
records that is pairwise non-increasing under lexicographic string
comparison of the createdAt key, with a record missing createdAt keyed
as the empty string (hence sorting last), and for every key value the
records carrying it appear in their original relative order (stability). -/
theorem get_all_tests_sorted (tests : List Rec)
    (h : ∀ r ∈ tests, (createdAtKey r).isSome = true) :
    ∃ out, get_all_tests tests = some out ∧
      out.Perm tests ∧
      out.Pairwise (fun a b => strLe (keyD b) (keyD a) = true) ∧
      (∀ s : String, out.filter (fun t => keyD t == s) = tests.filter (fun t => keyD t == s)) ∧
      (∀ r ∈ tests, dictGet r "createdAt" = none → keyD r = "") := by
  have hguard : tests.all (fun r => (createdAtKey r).isSome) = true := by
    rw [List.all_eq_true]
    intro r hr
    exact h r hr
  refine ⟨sortByCreatedAtDesc tests, ?_, sortDesc_perm tests, sortDesc_pairwise tests,
    fun s => sortDesc_filter tests s, ?_⟩
  · simp [get_all_tests, hguard]
  · intro r _ hnone
    simp [keyD, createdAtKey, hnone]

/-- C4 witness record: createdAt 2024-02-01. -/
def wC4a : Rec := [("id", .str "a"), ("createdAt", .str "2024-02-01")]

/-- C4 witness record: createdAt missing. -/
def wC4b : Rec := [("id", .str "b")]

/-- C4 witness record: createdAt 2024-03-01, the newest. -/
def wC4c : Rec := [("id", .str "c"), ("createdAt", .str "2024-03-01")]

/-- C4 witness record: createdAt equal to that of wC4a, inserted later. -/
def wC4d : Rec := [("id", .str "d"), ("createdAt", .str "2024-02-01")]

/-- C4 witness: on a concrete store with a missing createdAt and a tied
pair, the sorted output exists with all the stated properties, and
evaluates to newest first, the tied pair in insertion order, and the
record missing createdAt last. -/
theorem get_all_tests_sorted_witness :
    (∃ out, get_all_tests [wC4a, wC4b, wC4c, wC4d] = some out ∧
      out.Perm [wC4a, wC4b, wC4c, wC4d] ∧
      out.Pairwise (fun a b => strLe (keyD b) (keyD a) = true) ∧
      (∀ s : String, out.filter (fun t => keyD t == s) =
        [wC4a, wC4b, wC4c, wC4d].filter (fun t => keyD t == s)) ∧
      (∀ r ∈ [wC4a, wC4b, wC4c, wC4d], dictGet r "createdAt" = none → keyD r = "")) ∧
    get_all_tests [wC4a, wC4b, wC4c, wC4d] = some [wC4c, wC4a, wC4d, wC4b] :=
  ⟨get_all_tests_sorted [wC4a, wC4b, wC4c, wC4d] (by decide), rfl⟩

/-- The Pydantic request model Test of lines 33-38 of main.py: a body
rejected by FastAPI unless it carries exactly these typed fields.
Question entries are dicts (List of Dict in the source). -/
structure Test where
  id : String
  title : String
  duration : Int
  questions : List Rec
  createdAt : String

/-- test.dict() of line 103: the dict of the validated model, in field
declaration order. -/
def testDict (t : Test) : Rec :=
  [("id", .str t.id), ("title", .str t.title), ("duration", .int t.duration),
   ("questions", .arr (t.questions.map PyVal.obj)), ("createdAt", .str t.createdAt)]

/-- save_tests_to_db (lines 54-60): writes the list to the backing file;
an IOError during the write is caught and only printed, so the function
returns None either way and the caller receives no failure signal. The
ioError flag models whether the OS raises during the write; the first
component is the resulting file content (unchanged when the write
fails), the second the Python return value. -/
def save_tests_to_db (file : List Rec) (tests : List Rec) (ioError : Bool) :
    List Rec × Unit :=
  (if ioError then file else tests, ())

/-- POST /api/tests (save_new_test, lines 99-105): loads the store from
the file (load_tests_from_db is modelled as reading the parsed list),
appends test.dict(), saves best-effort, and returns the success payload
carrying test.id unconditionally. First component: the file content
after the call; second: the HTTP 200 response body. -/
def save_new_test (file : List Rec) (t : Test) (ioError : Bool) : List Rec × PyVal :=
  let tests := file ++ [testDict t]
  ((save_tests_to_db file tests ioError).1,
   .obj [("status", .str "success"), ("test_id", .str t.id)])

/-- C9: POST /api/tests returns the success payload with the test id even
when writing the backing file fails: the response is identical whether
or not the write raises, the failed write leaves the file unchanged, and
save_tests_to_db returns the same (unit) value in both cases, so no
caller of save can detect persistence failure through the return value. -/
theorem save_new_test_swallows_ioerror (file : List Rec) (t : Test) :
    (save_new_test file t true).2 = (save_new_test file t false).2 ∧
    (save_new_test file t true).2 =
      .obj [("status", .str "success"), ("test_id", .str t.id)] ∧
    (save_new_test file t true).1 = file ∧
    (save_new_test file t false).1 = file ++ [testDict t] ∧
    (∀ tests : List Rec,
      (save_tests_to_db file tests true).2 = (save_tests_to_db file tests false).2) ∧
    (∀ tests : List Rec, (save_tests_to_db file tests true).1 = file) :=
  ⟨rfl, rfl, rfl, rfl, fun _ => rfl, fun _ => rfl⟩

/-- C5 (amended): for a store whose records all have absent-or-string
createdAt values (otherwise GET raises) and which contains no record
whose fields equal test.dict() (otherwise the pre-existing copies are
also counted), POST /api/tests followed by GET /api/tests returns a list
containing exactly one record whose fields equal the posted test. The
claim as stated, quantified over every store, is refuted by
post_then_get_roundtrip_cex, where the store already holds an identical
record (the spec notes id uniqueness is not enforced). -/
theorem post_then_get_roundtrip (file : List Rec) (t : Test)
    (hk : ∀ r ∈ file, (createdAtKey r).isSome = true)
    (hfresh : ∀ r ∈ file, r ≠ testDict t) :
    ∃ out, get_all_tests ((save_new_test file t false).1) = some out ∧
      out.countP (fun r => decide (r = testDict t)) = 1 ∧ testDict t ∈ out := by
  have hfile : (save_new_test file t false).1 = file ++ [testDict t] := rfl
  have hkey : createdAtKey (testDict t) = some t.createdAt := by
    simp [createdAtKey, testDict, dictGet]
  have hk2 : ∀ r ∈ file ++ [testDict t], (createdAtKey r).isSome = true := by
    intro r hr
    rcases List.mem_append.mp hr with h | h
    · exact hk r h
    · rw [List.mem_singleton.mp h, hkey]
      rfl
  have hguard : (file ++ [testDict t]).all (fun r => (createdAtKey r).isSome) = true := by
    rw [List.all_eq_true]
    exact hk2
  have hnotmem : testDict t ∉ file := by
    intro hmem
    exact hfresh _ hmem rfl
  refine ⟨sortByCreatedAtDesc (file ++ [testDict t]), ?_, ?_, ?_⟩
  · rw [hfile]
    simp [get_all_tests, hguard]
  · have h1 := (sortDesc_perm (file ++ [testDict t])).countP_eq
      (fun r => decide (r = testDict t))
    have h2 : (file ++ [testDict t]).countP (fun r => decide (r = testDict t)) = 1 := by
      rw [List.countP_append]
      have hz : file.countP (fun r => decide (r = testDict t)) = 0 := by
        rw [List.countP_eq_zero]
        intro a ha
        simp only [decide_eq_true_eq]
        exact hfresh a ha
      rw [hz]
      simp [List.countP, List.countP.go]
    exact h1.trans h2
  · have : testDict t ∈ file ++ [testDict t] := by
      simp
    exact ((sortDesc_perm (file ++ [testDict t])).mem_iff).mpr this

/-- The test body of the C5 counterexample and witness. -/
def tC5 : Test :=
  { id := "a", title := "T", duration := 60, questions := [],
    createdAt := "2024-01-01T00:00:00" }

/-- C5 counterexample: when the store already holds a record identical to
test.dict() (possible since the store enforces no uniqueness), POST then
GET returns two records whose fields equal the posted test, not exactly
one. -/
theorem post_then_get_roundtrip_cex :
    get_all_tests ((save_new_test [testDict tC5] tC5 false).1) =
      some [testDict tC5, testDict tC5] :=
  rfl

/-- C5 witness: starting from the empty store, POST then GET returns a
list containing exactly one record whose fields equal the posted test. -/
theorem post_then_get_roundtrip_witness :
    ∃ out, get_all_tests ((save_new_test [] tC5 false).1) = some out ∧
      out.countP (fun r => decide (r = testDict tC5)) = 1 ∧ testDict tC5 ∈ out :=
  post_then_get_roundtrip [] tC5 (fun r hr => absurd hr (List.not_mem_nil r))
    (fun r hr => absurd hr (List.not_mem_nil r))

/-- A Python exception on the Gateway paths: KeyError carries str(e)
(the repr of the missing key), IndexError and TypeError their fixed
identities, jsonDecode the decoder message. KeyError, IndexError and
json.JSONDecodeError are the classes caught on line 85 of main.py;
TypeError is not caught there. -/
inductive PyExc where
  | keyError (rendered : String)
  | indexError
  | typeError
  | jsonDecode (msg : String)

/-- Does the except clause of line 85 catch this exception class. -/
def caughtExc : PyExc → Bool
  | .keyError _ => true
  | .indexError => true
  | .typeError => false
  | .jsonDecode _ => true

/-- Python str(e) for the caught exceptions, interpolated on line 87. -/
def excStr : PyExc → String
  | .keyError r => r
  | .indexError => "list index out of range"
  | .typeError => ""
  | .jsonDecode m => m

/-- Python v[k] for a str key: dict access (KeyError when the key is
absent, rendered as the quoted key); every other shape raises TypeError
(list and str reject str indices; None and numbers are not
subscriptable). -/
def pySubscriptStr (v : PyVal) (k : String) : Except PyExc PyVal :=
  match v with
  | .obj kvs =>
    match dictGet kvs k with
    | some x => .ok x
    | none => .error (.keyError ("\u0027" ++ k ++ "\u0027"))
  | _ => .error .typeError

/-- Python v[0]: list indexing (IndexError when empty), str indexing (a
one-character str, IndexError when empty), dict subscripting with the
int key 0 (always KeyError rendered 0, since JSON dict keys are str);
other shapes raise TypeError. -/
def pySubscriptZero (v : PyVal) : Except PyExc PyVal :=
  match v with
  | .arr [] => .error .indexError
  | .arr (x :: _) => .ok x
  | .str s =>
    match s.toList with
    | [] => .error .indexError
    | c :: _ => .ok (.str (String.mk [c]))
  | .obj _ => .error (.keyError "0")
  | _ => .error .typeError

/-- Python k in v: key test on dicts, element test on lists (a str
element equal to k), substring test on strs; TypeError otherwise. -/
def pyInTest (k : String) (v : PyVal) : Except PyExc Bool :=
  match v with
  | .obj kvs => .ok (dictGet kvs k).isSome
  | .arr xs => .ok (xs.any (fun x => match x with | .str s2 => s2 = k | _ => false))
  | .str s => .ok (strContains s k)
  | _ => .error .typeError

/-- The content-safety check of lines 79-80: if "promptFeedback" in
result and "blockReason" in result["promptFeedback"], the endpoint
raises 400 with the str of result["promptFeedback"]["blockReason"].
Returns the rendered reason when blocked, none when not, following
Python evaluation order (so an oddly-shaped result can raise). -/
def blockReasonCheck (result : PyVal) : Except PyExc (Option String) := do
  let b1 ← pyInTest "promptFeedback" result
  if b1 then
    let pf ← pySubscriptStr result "promptFeedback"
    let b2 ← pyInTest "blockReason" pf
    if b2 then
      let br ← pySubscriptStr pf "blockReason"
      pure (some (pyStr br))
    else
      pure none
  else
    pure none

/-- The envelope extraction and parse of lines 83-84:
result["candidates"][0]["content"]["parts"][0]["text"], then json.loads
on the extracted text. The JSON text decoder dec abstracts json.loads on
str input; json.loads applied to a non-str raises TypeError, which the
except clause does not catch. -/
def extractPayload (dec : String → Except String PyVal) (result : PyVal) :
    Except PyExc PyVal := do
  let c ← pySubscriptStr result "candidates"
  let c0 ← pySubscriptZero c
  let ct ← pySubscriptStr c0 "content"
  let p ← pySubscriptStr ct "parts"
  let p0 ← pySubscriptZero p
  let t ← pySubscriptStr p0 "text"
  match t with
  | .str s =>
    match dec s with
    | .ok v => pure v
    | .error m => .error (.jsonDecode m)
  | _ => .error .typeError

/-- The transport response of the single requests.post call: HTTP
status, the parsed JSON body (response.json()), and the raw body text
(response.text). The body is taken as already-parsed JSON; a body that
fails response.json() is outside every claim. -/
structure NetResponse where
  status : Nat
  body : PyVal
  bodyText : String

/-- Outcome of call_gemini_api: an HTTPException raised deliberately
(status and detail), an unhandled Python exception (FastAPI then
returns a generic 500 without any detail), or the parsed payload. -/
inductive GwOutcome where
  | httpError (status : Nat) (detail : String)
  | uncaught (e : PyExc)
  | ok (v : PyVal)

/-- Result of one invocation of the Gateway: the outcome, the number of
outbound network calls made (0 or 1), and the diagnostic print log as
(tag, printed value) pairs in order. -/
structure GwResult where
  outcome : GwOutcome
  networkCalls : Nat
  log : List (String × PyVal)

/-- call_gemini_api (lines 63-87) for a configured API key, a JSON text
decoder, and the transport response the single requests.post call would
produce. Transcribed stepwise: the credential check (line 67) precedes
the network call; a non-200 status raises an HTTPException carrying the
provider status and body text (lines 73-74); the parsed body is printed
(line 77); the content-safety check runs (lines 79-80); the payload is
extracted and parsed (lines 82-84), KeyError, IndexError and JSON decode
failures being converted to the 500 Invalid-response HTTPException after
printing the body again (lines 85-87), while other exceptions propagate
uncaught. -/
def call_gemini_api (apiKey : String) (dec : String → Except String PyVal)
    (net : NetResponse) : GwResult :=
  if apiKey = "" ∨ apiKey = "YOUR_API_KEY_HERE" then
    { outcome := .httpError 500 "Google AI API Key is not set in main.py.",
      networkCalls := 0, log := [] }
  else if net.status ≠ 200 then
    { outcome := .httpError net.status ("API call failed: " ++ net.bodyText),
      networkCalls := 1, log := [] }
  else
    let result := net.body
    let log0 : List (String × PyVal) := [("Gemini API raw response:", result)]
    match blockReasonCheck result with
    | .error e => { outcome := .uncaught e, networkCalls := 1, log := log0 }
    | .ok (some reasonText) =>
      { outcome := .httpError 400 ("Request blocked by API: " ++ reasonText),
        networkCalls := 1, log := log0 }
    | .ok none =>
      match extractPayload dec result with
      | .ok v => { outcome := .ok v, networkCalls := 1, log := log0 }
      | .error e =>
        if caughtExc e then
          { outcome := .httpError 500 ("Invalid response structure from AI: " ++ excStr e),
            networkCalls := 1,
            log := log0 ++ [("Error parsing Gemini response:", result)] }
        else { outcome := .uncaught e, networkCalls := 1, log := log0 }

/-- C6: with no provider credential configured (the empty string of line
19, or the placeholder the check also treats as unset), the Gateway
fails with the 500 configuration HTTPException, makes zero outbound
network calls, and prints nothing: the credential check precedes any
network I/O, for every decoder and every would-be transport response. -/
theorem call_gemini_api_no_credential (apiKey : String)
    (h : apiKey = "" ∨ apiKey = "YOUR_API_KEY_HERE")
    (dec : String → Except String PyVal) (net : NetResponse) :
    call_gemini_api apiKey dec net =
      { outcome := .httpError 500 "Google AI API Key is not set in main.py.",
        networkCalls := 0, log := [] } := by
  simp [call_gemini_api, h]

/-- C6 witness: the empty key of the shipped source fails with zero
network calls even against a live 200 response. -/
theorem call_gemini_api_no_credential_witness :
    call_gemini_api "" (fun _ => Except.error "unused")
        { status := 200, body := .null, bodyText := "" } =
      { outcome := .httpError 500 "Google AI API Key is not set in main.py.",
        networkCalls := 0, log := [] } :=
  call_gemini_api_no_credential "" (Or.inl rfl) _ _

/-- C7 (amended): for a provider envelope returned with success status
and no content-safety rejection, a structural miss in extracting
candidates[0].content.parts[0].text that raises one of the caught
classes (a missing key, index 0 of an empty array, or non-JSON text)
yields the 500 Invalid-response HTTPException whose detail carries the
rendered underlying cause, with the raw envelope printed to the
diagnostic log for diagnosis (the envelope is not embedded in the error
payload itself), after exactly one network call. Structural misses that
raise other classes (subscripting a non-container, or a non-str text fed
to json.loads) propagate as unhandled exceptions with no detail instead,
refuting the claim as stated: see call_gemini_api_malformed_cex. -/
theorem call_gemini_api_malformed (apiKey : String)
    (hk : ¬ (apiKey = "" ∨ apiKey = "YOUR_API_KEY_HERE"))
    (dec : String → Except String PyVal) (net : NetResponse)
    (hs : net.status = 200)
    (hb : blockReasonCheck net.body = .ok none)
    (e : PyExc) (he : extractPayload dec net.body = .error e)
    (hc : caughtExc e = true) :
    call_gemini_api apiKey dec net =
      { outcome := .httpError 500 ("Invalid response structure from AI: " ++ excStr e),
        networkCalls := 1,
        log := [("Gemini API raw response:", net.body),
                ("Error parsing Gemini response:", net.body)] } := by
  rw [call_gemini_api, if_neg hk, if_neg (by rw [hs]; exact fun hh => hh rfl)]
  dsimp only
  rw [hb, he]
  simp [hc]

/-- The C7 witness envelope: a 200 response whose candidates array is
empty, so extraction raises IndexError (a caught class). -/
def wC7net : NetResponse :=
  { status := 200, body := .obj [("candidates", .arr [])], bodyText := "ok" }

/-- C7 witness: on the concrete empty-candidates envelope the Gateway
raises the 500 Invalid-response HTTPException carrying the rendered
IndexError, with the raw envelope in the diagnostic log, after one
network call. -/
theorem call_gemini_api_malformed_witness :
    call_gemini_api "k" (fun _ => Except.error "unused") wC7net =
      { outcome := .httpError 500
          ("Invalid response structure from AI: " ++ excStr .indexError),
        networkCalls := 1,
        log := [("Gemini API raw response:", wC7net.body),
                ("Error parsing Gemini response:", wC7net.body)] } :=
  call_gemini_api_malformed "k" (by simp) (fun _ => Except.error "unused") wC7net rfl rfl
    .indexError rfl rfl

/-- The C7 counterexample envelope: a 200 response whose candidates field
is the int 5 (wrong nesting). -/
def cexC7net : NetResponse :=
  { status := 200, body := .obj [("candidates", .int 5)], bodyText := "ok" }

/-- C7 counterexample: the envelope has a success status and no content
safety rejection, and extracting candidates[0] is a structural miss
(candidates is an int, wrong nesting); but instead of the 500
Invalid-response HTTPException carrying the underlying cause, the code
raises an unhandled TypeError (int is not subscriptable), so FastAPI
returns a generic 500 with no cause and without logging the envelope on
the error path. -/
theorem call_gemini_api_malformed_cex :
    blockReasonCheck cexC7net.body = .ok none ∧
    extractPayload (fun _ => Except.error "unused") cexC7net.body = .error .typeError ∧
    call_gemini_api "k" (fun _ => Except.error "unused") cexC7net =
      { outcome := .uncaught .typeError, networkCalls := 1,
        log := [("Gemini API raw response:", cexC7net.body)] } :=
  ⟨rfl, rfl, rfl⟩

/-- Lines 127-132 of main.py: the head of the generate-paper prompt up to
instruction 2, with the exam name interpolated by the f-string. -/
def promptHead (examName : PyVal) : String :=
  "\n    You are an expert exam paper creator. Your task is to generate a complete, realistic mock test based on the provided exam name, matching the real exam\u0027s structure as closely as possible.\n    Exam Name: \"" ++ pyStr examName ++ "\"\n    Instructions:\n    1. Research and Determine Structure: First, research and determine the standard number of questions for the specified exam.\n    2. Generate Exact Question Count: Generate exactly that number of questions. Adhere strictly to the official exam pattern."

/-- Line 134: the question-count override, appended only when
question_count is truthy. -/
def overrideCountLine (qc : PyVal) : String :=
  "\n    2a. Override: Generate exactly " ++ pyStr qc ++
    " questions, regardless of the official pattern."

/-- Lines 135-136: instruction 3. -/
def promptMid : String :=
  "\n    3. Create Content: Generate a relevant test title, a suitable duration in minutes based on the official time limit, and the full set of questions."

/-- Line 138: the duration override, appended only when duration is
truthy. -/
def overrideDurationLine (dur : PyVal) : String :=
  "\n    3a. Override: Set the test duration to exactly " ++ pyStr dur ++ " minutes."

/-- Lines 139-150: the tail of the prompt (bilingual rule, output
structure, critical rules, explanation rule). -/
def promptTail : String :=
  "\n    4. Bilingual Questions: For each question and its options, provide both English and a high-quality Hindi translation in the format: \"English Text (हिन्दी टेक्स्ट)\".\n    5. Structure Output: The final output MUST be a single, valid JSON object.\n    6. CRITICAL RULE - Each object in the \"questions\" array MUST have:\n       - a non-empty \"questionText\" (the actual question, not the options or answers),\n       - an array of 4 \"options\",\n       - and a \"correctOptionIndex\".\n       The \u0027questionText\u0027 field must contain the full question. Do NOT leave it empty, do NOT repeat the options or answers in this field. If you cannot comply, return an error message in the \u0027questionText\u0027 field.\n    7. DOUBLE-CHECK: For each question, ensure that the answer at \u0027correctOptionIndex\u0027 is truly the correct answer for the question and options provided. Do not make mistakes in answer marking. If unsure, return an error message in the \u0027questionText\u0027 field.\n    8. For each question, add a brief explanation (in English) of why the correct answer is correct, in an \u0027explanation\u0027 field.\n    Generate the full mock test now.\n    "

/-- The prompt of generate_paper (lines 127-150) as a function of
exam_name, duration and question_count: each override is appended only
when its value is truthy (Python if question_count, if duration). -/
def generatePaperPrompt (examName dur qc : PyVal) : String :=
  promptHead examName ++
  (if pyTruthy qc then overrideCountLine qc else "") ++
  promptMid ++
  (if pyTruthy dur then overrideDurationLine dur else "") ++
  promptTail

/-- The prompt as a function of the request body (lines 123-126):
exam_name = data.get("examName", ""), duration = data.get("duration"),
question_count = data.get("questionCount"). -/
def generatePaperPromptOf (data : Rec) : String :=
  generatePaperPrompt ((dictGet data "examName").getD (.str ""))
    ((dictGet data "duration").getD .null)
    ((dictGet data "questionCount").getD .null)

/-- The per-question schema object of lines 158-167. -/
def questionItemSchema : PyVal := .obj [
  ("type", .str "OBJECT"),
  ("properties", .obj [
    ("questionText", .obj [("type", .str "STRING")]),
    ("options", .obj [("type", .str "ARRAY"), ("items", .obj [("type", .str "STRING")])]),
    ("correctOptionIndex", .obj [("type", .str "NUMBER")]),
    ("explanation", .obj [("type", .str "STRING")])]),
  ("required", .arr [.str "questionText", .str "options", .str "correctOptionIndex",
    .str "explanation"])]

/-- The response schema of generate_paper (lines 151-171). -/
def generatePaperSchema : PyVal := .obj [
  ("type", .str "OBJECT"),
  ("properties", .obj [
    ("title", .obj [("type", .str "STRING")]),
    ("duration", .obj [("type", .str "NUMBER")]),
    ("questions", .obj [("type", .str "ARRAY"), ("items", questionItemSchema)])]),
  ("required", .arr [.str "title", .str "duration", .str "questions"])]

/-- The request payload of line 172: the prompt and schema wrapped in the
provider envelope. -/
def generatePaperPayload (prompt : String) (schema : PyVal) : PyVal :=
  .obj [("contents", .arr [.obj [("parts", .arr [.obj [("text", .str prompt)]])]]),
    ("generationConfig", .obj [("responseMimeType", .str "application/json"),
      ("responseSchema", schema)])]

/-- The keys of an object value, in order. -/
def objKeys : PyVal → Option (List String)
  | .obj kvs => some (kvs.map (fun p => p.1))
  | _ => none

/-- C8 (amended): whenever the request supplies a truthy questionCount,
the built instruction contains the override directive line mentioning
that exact count (str-rendered), and whenever it supplies a truthy
duration, the instruction contains the override line setting that exact
duration; the built schema requires exactly the four question fields
questionText, options, correctOptionIndex, explanation, and its
properties are exactly those four. A supplied falsy value (such as the
count 0) adds no override at all, refuting the claim as stated for
supplied-but-falsy values: see generate_paper_prompt_cex. -/
theorem generate_paper_prompt_schema (data : Rec) :
    (∀ qc, dictGet data "questionCount" = some qc → pyTruthy qc = true →
      (∃ l r, generatePaperPromptOf data = l ++ (overrideCountLine qc ++ r)) ∧
      (∃ l2 r2, overrideCountLine qc = l2 ++ (pyStr qc ++ r2))) ∧
    (∀ dur, dictGet data "duration" = some dur → pyTruthy dur = true →
      (∃ l r, generatePaperPromptOf data = l ++ (overrideDurationLine dur ++ r)) ∧
      (∃ l2 r2, overrideDurationLine dur = l2 ++ (pyStr dur ++ r2))) ∧
    jGet questionItemSchema "required" =
      some (.arr [.str "questionText", .str "options", .str "correctOptionIndex",
        .str "explanation"]) ∧
    (jGet questionItemSchema "properties").bind objKeys =
      some ["questionText", "options", "correctOptionIndex", "explanation"] := by
  refine ⟨?_, ?_, rfl, rfl⟩
  · intro qc hqc htr
    constructor
    · refine ⟨promptHead ((dictGet data "examName").getD (.str "")),
        promptMid ++ ((if pyTruthy ((dictGet data "duration").getD .null)
          then overrideDurationLine ((dictGet data "duration").getD .null) else "") ++
          promptTail), ?_⟩
      unfold generatePaperPromptOf generatePaperPrompt
      rw [hqc, Option.getD_some, if_pos htr]
      simp [String.append_assoc]
    · refine ⟨"\n    2a. Override: Generate exactly ",
        " questions, regardless of the official pattern.", ?_⟩
      unfold overrideCountLine
      simp [String.append_assoc]
  · intro dur hdur htr
    constructor
    · refine ⟨promptHead ((dictGet data "examName").getD (.str "")) ++
        ((if pyTruthy ((dictGet data "questionCount").getD .null)
          then overrideCountLine ((dictGet data "questionCount").getD .null) else "") ++
          promptMid), promptTail, ?_⟩
      unfold generatePaperPromptOf generatePaperPrompt
      rw [hdur, Option.getD_some, if_pos htr]
      simp [String.append_assoc]
    · refine ⟨"\n    3a. Override: Set the test duration to exactly ", " minutes.", ?_⟩
      unfold overrideDurationLine
      simp [String.append_assoc]

/-- The C8 witness request: examName supplied, questionCount 2 (the spec
scenario) and duration 90, both truthy. -/
def wC8data : Rec := [("examName", .str "Sample Exam"), ("questionCount", .int 2),
  ("duration", .int 90)]

/-- C8 witness: the prompt built for the concrete request contains the
override line for exactly 2 questions (which itself mentions the
rendered count 2) and the override line setting the duration to exactly
90 minutes; the question schema requires exactly the four fields. -/
theorem generate_paper_prompt_schema_witness :
    (∃ l r, generatePaperPromptOf wC8data = l ++ (overrideCountLine (.int 2) ++ r)) ∧
    (∃ l2 r2, overrideCountLine (.int 2) = l2 ++ (pyStr (.int 2) ++ r2)) ∧
    (∃ l r, generatePaperPromptOf wC8data = l ++ (overrideDurationLine (.int 90) ++ r)) ∧
    jGet questionItemSchema "required" =
      some (.arr [.str "questionText", .str "options", .str "correctOptionIndex",
        .str "explanation"]) :=
  ⟨((generate_paper_prompt_schema wC8data).1 (.int 2) rfl rfl).1,
   ((generate_paper_prompt_schema wC8data).1 (.int 2) rfl rfl).2,
   ((generate_paper_prompt_schema wC8data).2.1 (.int 90) rfl rfl).1,
   (generate_paper_prompt_schema wC8data).2.2.1⟩

/-- C8 counterexample: the request supplies questionCount = 0, yet the
built instruction is character-for-character the instruction of the
request that supplies no questionCount at all; in particular it contains
no Override directive and never mentions the count 0 (the instruction
does contain the word exactly, but only in the fixed instruction 2 about
the standard question number). -/
theorem generate_paper_prompt_cex :
    generatePaperPromptOf [("examName", .str "X"), ("questionCount", .int 0)] =
      generatePaperPromptOf [("examName", .str "X")] ∧
    strContains (generatePaperPromptOf [("examName", .str "X"), ("questionCount", .int 0)])
      "Override" = false ∧
    strContains (generatePaperPromptOf [("examName", .str "X"), ("questionCount", .int 0)])
      (pyStr (.int 0)) = false := by
  refine ⟨rfl, ?_, ?_⟩ <;> decide
